import Mathlib

/-!
Shallow embedding of the htflow-extension running-server registry and
dual-webview message-routing layer (src/sidebarProvider.ts) together with
the captured command executor. JavaScript runtime values that flow through
message payloads are modelled by `JSVal`; machine numbers are modelled by
`Int` (the ports and exit codes handled here are integral, so `Math.floor`
is the identity and is dropped). JS `Map` objects are modelled by
insertion-ordered association lists, matching the iteration order of
`Map.entries()`. Side effects (notifications, terminal writes, webview
`postMessage` broadcasts) are recorded in an event log inside the state.
-/

/-- A JavaScript runtime value as it appears in webview message payload
fields: `undef` is `undefined`, `nan` a non-finite number, `num` a finite
(integral) number, `str` a string. -/
inductive JSVal where
  | undef
  | nan
  | num (n : Int)
  | str (s : String)
  deriving Repr, DecidableEq

/-- JavaScript truthiness of a payload value: `undefined`, `NaN`, `0` and
the empty string are falsy. -/
def JSVal.truthy : JSVal → Bool
  | .undef => false
  | .nan => false
  | .num n => n != 0
  | .str s => s != ""

/-- `Number.isFinite(v)` as used in the source: it does not coerce, so only
an actual finite number passes; returns that number. -/
def JSVal.toFiniteNumber : JSVal → Option Int
  | .num n => some n
  | _ => none

/-- JavaScript `v.toString()` for the values that reach it in the source. -/
def JSVal.jsToString : JSVal → String
  | .undef => "undefined"
  | .nan => "NaN"
  | .num n => toString n
  | .str s => s

/-- JavaScript `Number(s)` on a string, restricted to the integral subset
this development models: trimmed empty string is `0`, an optionally signed
digit string is that integer, anything else is `NaN`. -/
def parseJSNumber (s : String) : JSVal :=
  let t := s.trim
  if t = "" then .num 0
  else
    match t.toInt? with
    | some n => .num n
    | none => .nan

/-- JavaScript `Number(v)` conversion. -/
def JSVal.toNumber : JSVal → JSVal
  | .undef => .nan
  | .nan => .nan
  | .num n => .num n
  | .str s => parseJSNumber s

/-- JavaScript `a || b` on strings: `a` when non-empty, else `b`. -/
def jsOrStr (a b : String) : String := if a != "" then a else b

/-- Which UI surface requested a server start (`origin` field). -/
inductive Origin where
  | browser
  | sidebar
  deriving Repr, DecidableEq

/-- One entry of the running-server registry (`RunningServer` in the
source); the `terminal` field is the opaque terminal handle, modelled by
the numeric identifier assigned at creation. -/
structure RunningServer where
  port : Nat
  mode : String
  folder : String
  startTime : Nat
  terminal : Nat
  origin : Origin
  deriving Repr, DecidableEq

/-- `Map.has` on an insertion-ordered association list. -/
def mapHas {α : Type} (m : List (String × α)) (k : String) : Bool :=
  m.any (fun kv => kv.1 == k)

/-- `Map.get` on an insertion-ordered association list. -/
def mapGet {α : Type} (m : List (String × α)) (k : String) : Option α :=
  (m.find? (fun kv => kv.1 == k)).map (fun kv => kv.2)

/-- `Map.set`: update in place when the key exists (keeping order),
otherwise append at the end, matching JS `Map` semantics. -/
def mapSet {α : Type} (m : List (String × α)) (k : String) (v : α) :
    List (String × α) :=
  if mapHas m k then m.map (fun kv => if kv.1 == k then (k, v) else kv)
  else m ++ [(k, v)]

/-- `Map.delete` on an insertion-ordered association list. -/
def mapDelete {α : Type} (m : List (String × α)) (k : String) :
    List (String × α) :=
  m.filter (fun kv => kv.1 != k)

/-- A surface that receives `postMessage` broadcasts: the sidebar webview
view (`_view`) or the detached browser preview panel (`_browserPanel`). -/
inductive Surface where
  | sidebarView
  | browserPanel
  deriving Repr, DecidableEq

/-- Outbound lifecycle broadcasts produced by the server operations. -/
inductive OutMsg where
  | serverStarted (serverId : String) (port : Nat) (mode folder : String)
      (startTime : Nat)
  | serverStopped (serverId : String) (port : Option Nat)
  | liveServerStoppedMsg
  deriving Repr, DecidableEq

/-- Observable side effects logged by the operations. -/
inductive Event where
  | posted (s : Surface) (m : OutMsg)
  | infoMsg (m : String)
  | errMsg (m : String)
  | statusBarMsg (m : String)
  | termCreated (t : Nat) (nm : String)
  | termShown (t : Nat)
  | termText (t : Nat) (cmd : String)
  | termDisposed (t : Nat)
  | interruptFailed (serverId : String)
  | delayedOpen (url : String)
  deriving Repr, DecidableEq

/-- The mutable state of `HTFlowSidebarProvider` relevant to the server
registry layer: the running-server registry, the bare terminal-handle map,
the browser live-preview target pointer, which surfaces currently exist,
the browser panel port-forward table, a counter producing fresh terminal
handles, and the event log. -/
structure SPState where
  runningServers : List (String × RunningServer)
  terminals : List (String × Nat)
  browserLiveServerId : Option String
  viewOpen : Bool
  browserPanelOpen : Bool
  portMappings : List Nat
  nextTerm : Nat
  events : List Event
  deriving Repr, DecidableEq

/-- Freshly constructed provider: empty maps, no live-preview target. -/
def initState : SPState :=
  { runningServers := []
    terminals := []
    browserLiveServerId := none
    viewOpen := true
    browserPanelOpen := false
    portMappings := []
    nextTerm := 0
    events := [] }

/-- Append one event to the log. -/
def emit (st : SPState) (e : Event) : SPState :=
  { st with events := st.events ++ [e] }

/-- Mode-specific default port:
`mode === "dev" ? 3050 : mode === "start" ? 3051 : 3000`. -/
def defaultPortFor (mode : String) : Nat :=
  if mode = "dev" then 3050 else if mode = "start" then 3051 else 3000

/-- `Math.max(1, Math.min(65535, Math.floor(port)))`; `Math.floor` is the
identity on the integral values modelled here. -/
def clampPort (p : Int) : Nat := (max 1 (min 65535 p)).toNat

/-- The port normalization at the top of `startHTFlowServer`:
`Number.isFinite(port) ? clamp : defaultPort`. -/
def normalizePortOf (port : JSVal) (mode : String) : Nat :=
  match port.toFiniteNumber with
  | some p => clampPort p
  | none => defaultPortFor mode

/-- `findRunningServerByPort(port, mode?)`: first entry, in insertion
order, whose port matches and whose mode matches when the `mode` filter is
supplied; in JS `!mode` is also true for the empty string, so an empty
filter matches everything. -/
def findRunningServerByPort (servers : List (String × RunningServer))
    (port : Nat) (mode : Option String) : Option (String × RunningServer) :=
  servers.find? (fun kv =>
    kv.2.port == port &&
      (match mode with
       | none => true
       | some m => m == "" || kv.2.mode == m))

/-- `ensureBrowserPortMapping(port)`: no-op when the browser panel is not
open or an entry for the port exists; otherwise append a
`(webviewPort = port, extensionHostPort = port)` entry. -/
def ensureBrowserPortMapping (st : SPState) (port : Nat) : SPState :=
  if !st.browserPanelOpen then st
  else if st.portMappings.any (fun p => p == port) then st
  else { st with portMappings := st.portMappings ++ [port] }

/-- The ` ${folderValue}` argument fragment appended to serve commands. -/
def folderArgOf (folderValue : String) : String :=
  if folderValue != "" then " " ++ folderValue else ""

/-- The CLI invocation string selected inside `startHTFlowServer`: short
form for `dev`/`start` when the caller did not explicitly specify a port,
otherwise the long `serve <mode> ... -p <port>` form. -/
def serveCommand (mode folderValue : String) (hasUserSpecifiedPort : Bool)
    (normalizedPort : Nat) : String :=
  if mode = "dev" && !hasUserSpecifiedPort then
    "npx htflow dev" ++ folderArgOf folderValue
  else if mode = "start" && !hasUserSpecifiedPort then
    "npx htflow serve" ++ folderArgOf folderValue
  else
    "npx htflow serve " ++ mode ++ folderArgOf folderValue ++ " -p " ++
      toString normalizedPort

/-- Ambient facts a start call runs under: whether a workspace folder is
open, and the `Date.now()` timestamp observed during the call. -/
structure StartEnv where
  hasWorkspace : Bool
  now : Nat
  deriving Repr, DecidableEq

/-- `startHTFlowServer(port, mode, folder, origin, hasUserSpecifiedPort)`:
normalize the port, reuse an existing registry entry matching
`(normalizedPort, mode)` when present (surfacing its terminal, and for
browser origin marking it the live-preview target and forwarding its
port), fail when no workspace is open, otherwise create a terminal, record
the terminal handle and a fresh registry entry, send the selected CLI
invocation, notify, broadcast `serverStarted` to the existing surfaces,
and either schedule the delayed browser open (non-browser origin) or
forward the port (browser origin). Returns the `{serverId, server}` pair
or `none` on the no-workspace failure. -/
def startHTFlowServer (st : SPState) (env : StartEnv) (port : JSVal)
    (mode : String) (folder : Option String) (origin : Origin)
    (hasUserSpecifiedPort : Bool) : SPState × Option (String × RunningServer) :=
  let normalizedPort := normalizePortOf port mode
  match findRunningServerByPort st.runningServers normalizedPort (some mode) with
  | some (serverId, server) =>
      let st := emit st (.termShown server.terminal)
      let st :=
        if origin == .browser then
          let st := { st with browserLiveServerId := some serverId }
          let st := ensureBrowserPortMapping st server.port
          emit st (.statusBarMsg
            ("HTFlow server already running on port " ++ toString server.port))
        else
          emit st (.infoMsg
            ("HTFlow " ++ server.mode ++ " server already running on port " ++
              toString server.port))
      (st, some (serverId, server))
  | none =>
      if !env.hasWorkspace then
        (emit st (.errMsg "Cannot start HTFlow server: no workspace folder is open"),
         none)
      else
        let serverId := mode ++ "-" ++ toString normalizedPort ++ "-" ++
          toString env.now
        let terminal := st.nextTerm
        let st := { st with nextTerm := st.nextTerm + 1 }
        let st := emit st (.termCreated terminal
          ("HTFlow Server (" ++ mode ++ ":" ++ toString normalizedPort ++ ")"))
        let st := { st with terminals := mapSet st.terminals serverId terminal }
        let folderValue := (folder.getD "").trim
        let serverInfo : RunningServer :=
          { port := normalizedPort
            mode := mode
            folder := folderValue
            startTime := env.now
            terminal := terminal
            origin := origin }
        let st := { st with runningServers := mapSet st.runningServers serverId serverInfo }
        let st :=
          if origin == .browser then { st with browserLiveServerId := some serverId }
          else st
        let st := emit st (.termShown terminal)
        let command := serveCommand mode folderValue hasUserSpecifiedPort normalizedPort
        let st := emit st (.termText terminal command)
        let statusMessage := "HTFlow " ++ mode ++ " server starting on port " ++
          toString normalizedPort ++
          (if folderValue != "" then " from folder " ++ folderValue else "") ++ "..."
        let st :=
          if origin == .browser then emit st (.statusBarMsg statusMessage)
          else emit st (.infoMsg statusMessage)
        let payload : OutMsg := .serverStarted serverId serverInfo.port
          serverInfo.mode serverInfo.folder serverInfo.startTime
        let st := if st.viewOpen then emit st (.posted .sidebarView payload) else st
        let st := if st.browserPanelOpen then emit st (.posted .browserPanel payload) else st
        let st :=
          if origin != .browser then
            emit st (.delayedOpen ("http://localhost:" ++ toString normalizedPort))
          else
            ensureBrowserPortMapping st normalizedPort
        (st, some (serverId, serverInfo))

/-- `stopServer(serverId, port?)`: report failure when neither a registry
entry nor a bare terminal handle exists for the identifier; otherwise send
the interrupt (its failure, modelled by `interruptFails`, is caught and
only logged), dispose the terminal, drop both map entries, broadcast
`serverStopped` to the existing surfaces, clear the live-preview target
when it was this identifier (broadcasting `liveServerStopped` to the
browser panel), notify, and report success. -/
def stopServer (st : SPState) (interruptFails : Bool) (serverId : String)
    (port : Option Nat) : SPState × Bool :=
  let serverInfo := mapGet st.runningServers serverId
  let resolvedPort :=
    match port with
    | some p => some p
    | none => serverInfo.map (fun s => s.port)
  let isBrowserOrigin := serverInfo.map (fun s => s.origin) == some Origin.browser
  if serverInfo.isNone && !mapHas st.terminals serverId then
    (st, false)
  else
    let terminal :=
      match mapGet st.terminals serverId with
      | some t => some t
      | none => serverInfo.map (fun s => s.terminal)
    let st :=
      match terminal with
      | some t =>
          let st :=
            if interruptFails then emit st (.interruptFailed serverId)
            else emit st (.termText t "\u0003")
          let st := emit st (.termDisposed t)
          { st with terminals := mapDelete st.terminals serverId }
      | none => st
    let st := { st with runningServers := mapDelete st.runningServers serverId }
    let st :=
      if st.viewOpen then
        emit st (.posted .sidebarView (.serverStopped serverId resolvedPort))
      else st
    let st :=
      if st.browserPanelOpen then
        emit st (.posted .browserPanel (.serverStopped serverId resolvedPort))
      else st
    let st :=
      if st.browserLiveServerId == some serverId then
        let st := { st with browserLiveServerId := none }
        if st.browserPanelOpen then emit st (.posted .browserPanel .liveServerStoppedMsg)
        else st
      else st
    let successMessage :=
      match resolvedPort with
      | some p =>
          if p != 0 then
            "HTFlow server on port " ++ toString p ++ " stopped successfully"
          else "HTFlow server stopped successfully"
      | none => "HTFlow server stopped successfully"
    let st :=
      if isBrowserOrigin then emit st (.statusBarMsg successMessage)
      else emit st (.infoMsg successMessage)
    (st, true)

/-- `dispose()`: tear the session down — dispose the browser panel (its
disposal clears the port-forward table with it), dispose every tracked
terminal, and clear both maps. The browser live-preview target pointer is
not touched by this method in the source. -/
def dispose (st : SPState) : SPState :=
  let st :=
    if st.browserPanelOpen then
      { st with browserPanelOpen := false, portMappings := [] }
    else st
  let disposeEvents : List Event :=
    st.terminals.map (fun kv => Event.termDisposed kv.2)
  let st := { st with events := st.events ++ disposeEvents }
  { st with terminals := [], runningServers := [] }

/-- The invariant of spec section 3 / claim C3: whenever the browser
live-preview target is non-empty it names a key currently present in the
running-server registry. -/
def browserTargetConsistent (st : SPState) : Prop :=
  ∀ sid, st.browserLiveServerId = some sid → mapHas st.runningServers sid = true

/-- Executable form of `browserTargetConsistent`. -/
def browserTargetConsistentB (st : SPState) : Bool :=
  match st.browserLiveServerId with
  | none => true
  | some sid => mapHas st.runningServers sid

/-- Resolved output of `execPromise`: the captured stdout and stderr. -/
structure ExecSuccess where
  stdout : String
  stderr : String
  deriving Repr, DecidableEq

/-- Rejection of `execPromise`: whatever the failed process emitted on
stdout and stderr, the error message, and the reported exit code when there
was one (`undefined` for spawn errors). -/
structure ExecError where
  stdout : String
  stderr : String
  message : String
  code : Option Int
  deriving Repr, DecidableEq

/-- Outcome of one captured command execution. -/
inductive ExecResult where
  | ok (r : ExecSuccess)
  | failed (e : ExecError)
  deriving Repr, DecidableEq

/-- The `commandResults` payload assembled by `executeHTFlowCommandForPanel`. -/
structure CommandData where
  command : String
  output : String
  success : Bool
  exitCode : Int
  duration : Nat
  deriving Repr, DecidableEq

/-- The result object `executeHTFlowCommandForPanel` broadcasts for a
captured execution: on success `stdout || stderr || sentinel` with exit
code 0; on failure `stdout || stderr || message || sentinel` with
`success = false` and exit code `execError.code || 1` (JS `||`, so a
missing — or zero — reported code becomes 1). -/
def panelCommandData (commandText : String) (r : ExecResult) (duration : Nat) :
    CommandData :=
  match r with
  | .ok res =>
      { command := commandText
        output := jsOrStr res.stdout
          (jsOrStr res.stderr "Command completed successfully (no output)")
        success := true
        exitCode := 0
        duration := duration }
  | .failed e =>
      { command := commandText
        output := jsOrStr e.stdout
          (jsOrStr e.stderr (jsOrStr e.message "Command failed with no output"))
        success := false
        exitCode :=
          match e.code with
          | some c => if c != 0 then c else 1
          | none => 1
        duration := duration }

/-- The `auditResults` output text `executeHTFlowAuditForPanel` delivers:
on success `stdout || stderr || "No output received"`; on failure
`stdout || stderr || message`, and nothing at all when that chain is empty
(the `if (errorOutput)` guard). -/
def auditPanelOutput (r : ExecResult) : Option String :=
  match r with
  | .ok res => some (jsOrStr res.stdout (jsOrStr res.stderr "No output received"))
  | .failed e =>
      let errorOutput := jsOrStr e.stdout (jsOrStr e.stderr e.message)
      if errorOutput != "" then some errorOutput else none

/-- An inbound webview message with the payload fields the handlers read.
Fields a given message does not carry are `undef` / `none` / default. -/
structure Msg where
  command : String
  port : JSVal
  mode : JSVal
  folder : Option String
  path : Option String
  url : Option String
  serverId : JSVal
  tool : String
  setting : String
  value : Bool
  displayInPanel : Bool
  deriving Repr, DecidableEq

/-- The operation a message handler dispatches to, with the arguments it
passes; `noop` is a guarded branch whose condition failed. -/
inductive HandlerOp where
  | showInfo (msg : String)
  | openBrowserPanelAct
  | execForPanel (command successMessage : String)
  | auditForPanel (folder : Option String) (successMessage : String)
  | execWithFolder (command : String) (folder : Option String)
      (successMessage : String)
  | executeCommand (cmd : String)
  | openFileInWorkspace (p : String)
  | startServer (port : JSVal) (mode : String) (folder : Option String)
      (origin : Origin) (hasUserSpecifiedPort : Bool)
  | toolAction (tool : String)
  | settingChange (setting : String) (value : Bool)
  | validateFile (p : String)
  | execNpm (cmd : String) (successMessage : String)
  | stopServerAct (serverId : JSVal) (port : JSVal)
  | openUrl (url : String)
  | openExternal (url : String)
  | openIndexInBrowser
  | noop
  deriving Repr, DecidableEq

/-- JS truthiness filter on an optional string payload field. -/
def truthyStrOpt : Option String → Option String
  | some s => if s != "" then some s else none
  | none => none

/-- `message.port && message.port.toString().trim() !== ""` — the
"user explicitly specified a port" flag computed by the serve handlers. -/
def hasUserPortFlag (port : JSVal) : Bool :=
  port.truthy && (port.jsToString.trim != "")

/-- The dispatch performed by the message handler `resolveWebviewView`
installs on the sidebar webview view: each `switch` case of the source in
order, with the argument expressions each case passes; the `default` case
is the generic information acknowledgment. -/
def sidebarDispatch (m : Msg) : HandlerOp :=
  if m.command = "ready" then
    .showInfo "HTFlow panel loaded successfully!"
  else if m.command = "openBrowserPanel" then
    .openBrowserPanelAct
  else if m.command = "htflow.init" then
    .execForPanel "init" "HTFlow project initialized successfully!"
  else if m.command = "htflow.validate" then
    .execForPanel "validate" "Validation completed successfully!"
  else if m.command = "htflow.audit" then
    if m.displayInPanel then .auditForPanel m.folder "Audit completed successfully!"
    else .execWithFolder "audit" m.folder "Audit completed successfully!"
  else if m.command = "refreshWorkspace" then
    .executeCommand "workbench.action.reloadWindow"
  else if m.command = "openFile" then
    match truthyStrOpt m.path with
    | some p => .openFileInWorkspace p
    | none => .noop
  else if m.command = "startLiveServer" then
    .startServer (if m.port.truthy then m.port else .num 3000) "dev" none
      .browser false
  else if m.command = "toolAction" then
    .toolAction m.tool
  else if m.command = "settingChange" then
    .settingChange m.setting m.value
  else if m.command = "validateFile" then
    match truthyStrOpt m.path with
    | some p => .validateFile p
    | none => .noop
  else if m.command = "htflow.audit.html" then
    .execForPanel "audit --html" "HTML audit report generated successfully!"
  else if m.command = "htflow.build" then
    .execForPanel "build" "Project built successfully!"
  else if m.command = "htflow.serve.dev" then
    .startServer (if m.port.truthy then m.port.toNumber else .num 3050) "dev"
      m.folder .sidebar (hasUserPortFlag m.port)
  else if m.command = "htflow.serve.prod" then
    .startServer (if m.port.truthy then m.port.toNumber else .num 3051) "start"
      m.folder .sidebar (hasUserPortFlag m.port)
  else if m.command = "htflow.serve.custom" then
    .startServer (if m.port.truthy then m.port else .num 3000) "dev" none
      .sidebar false
  else if m.command = "htflow.version" then
    .execForPanel "version" "HTFlow version checked successfully!"
  else if m.command = "htflow.mcp-install" then
    .execForPanel "mcp-install" "MCP configuration installed successfully!"
  else if m.command = "htflow.mcp-uninstall" then
    .execForPanel "mcp-uninstall" "MCP configuration uninstalled successfully!"
  else if m.command = "htflow.mcp-status" then
    .execForPanel "mcp-status" "MCP status checked successfully!"
  else if m.command = "npm.install" then
    .execNpm "install -g htflow-cli" "HTFlow CLI installed successfully!"
  else if m.command = "npm.update" then
    .execNpm "install -g htflow-cli@latest" "HTFlow CLI updated successfully!"
  else if m.command = "npm.uninstall" then
    .execNpm "uninstall -g htflow-cli" "HTFlow CLI uninstalled successfully!"
  else if m.command = "stopServer" then
    .stopServerAct m.serverId m.port
  else if m.command = "openUrl" then
    match truthyStrOpt m.url with
    | some u => .openUrl u
    | none => .noop
  else if m.command = "openExternal" then
    match truthyStrOpt m.url with
    | some u => .openExternal u
    | none => .noop
  else if m.command = "openIndexInBrowser" then
    .openIndexInBrowser
  else
    .showInfo ("HTFlow: " ++ m.command)

/-- The dispatch performed by the message handler `attachMessageHandler`
installs on the detached right-side webview panel: each `switch` case of
that second handler in source order, with the argument expressions it
passes; its `default` case is the same generic information
acknowledgment. -/
def panelDispatch (m : Msg) : HandlerOp :=
  if m.command = "ready" then
    .showInfo "HTFlow panel loaded successfully!"
  else if m.command = "openBrowserPanel" then
    .openBrowserPanelAct
  else if m.command = "htflow.init" then
    .execForPanel "init" "HTFlow project initialized successfully!"
  else if m.command = "htflow.validate" then
    .execForPanel "validate" "Validation completed successfully!"
  else if m.command = "htflow.audit" then
    if m.displayInPanel then .auditForPanel m.folder "Audit completed successfully!"
    else .execWithFolder "audit" m.folder "Audit completed successfully!"
  else if m.command = "refreshWorkspace" then
    .executeCommand "workbench.action.reloadWindow"
  else if m.command = "openFile" then
    match truthyStrOpt m.path with
    | some p => .openFileInWorkspace p
    | none => .noop
  else if m.command = "startLiveServer" then
    .startServer (if m.port.truthy then m.port else .num 3000) "dev" none
      .browser false
  else if m.command = "toolAction" then
    .toolAction m.tool
  else if m.command = "settingChange" then
    .settingChange m.setting m.value
  else if m.command = "validateFile" then
    match truthyStrOpt m.path with
    | some p => .validateFile p
    | none => .noop
  else if m.command = "htflow.audit.html" then
    .execForPanel "audit --html" "HTML audit report generated successfully!"
  else if m.command = "htflow.build" then
    .execForPanel "build" "Project built successfully!"
  else if m.command = "htflow.serve.dev" then
    .startServer (if m.port.truthy then m.port.toNumber else .num 3050) "dev"
      m.folder .sidebar (hasUserPortFlag m.port)
  else if m.command = "htflow.serve.prod" then
    .startServer (if m.port.truthy then m.port.toNumber else .num 3051) "start"
      m.folder .sidebar (hasUserPortFlag m.port)
  else if m.command = "htflow.serve.custom" then
    .startServer (if m.port.truthy then m.port else .num 3000) "dev" none
      .sidebar false
  else if m.command = "htflow.version" then
    .execForPanel "version" "HTFlow version checked successfully!"
  else if m.command = "htflow.mcp-install" then
    .execForPanel "mcp-install" "MCP configuration installed successfully!"
  else if m.command = "htflow.mcp-uninstall" then
    .execForPanel "mcp-uninstall" "MCP configuration uninstalled successfully!"
  else if m.command = "htflow.mcp-status" then
    .execForPanel "mcp-status" "MCP status checked successfully!"
  else if m.command = "npm.install" then
    .execNpm "install -g htflow-cli" "HTFlow CLI installed successfully!"
  else if m.command = "npm.update" then
    .execNpm "install -g htflow-cli@latest" "HTFlow CLI updated successfully!"
  else if m.command = "npm.uninstall" then
    .execNpm "uninstall -g htflow-cli" "HTFlow CLI uninstalled successfully!"
  else if m.command = "stopServer" then
    .stopServerAct m.serverId m.port
  else if m.command = "openUrl" then
    match truthyStrOpt m.url with
    | some u => .openUrl u
    | none => .noop
  else if m.command = "openExternal" then
    match truthyStrOpt m.url with
    | some u => .openExternal u
    | none => .noop
  else if m.command = "openIndexInBrowser" then
    .openIndexInBrowser
  else
    .showInfo ("HTFlow: " ++ m.command)

/-- The command names both `switch` statements handle explicitly; any
other name falls to the `default` case. -/
def knownCommands : List String :=
  ["ready", "openBrowserPanel", "htflow.init", "htflow.validate",
   "htflow.audit", "refreshWorkspace", "openFile", "startLiveServer",
   "toolAction", "settingChange", "validateFile", "htflow.audit.html",
   "htflow.build", "htflow.serve.dev", "htflow.serve.prod",
   "htflow.serve.custom", "htflow.version", "htflow.mcp-install",
   "htflow.mcp-uninstall", "htflow.mcp-status", "npm.install", "npm.update",
   "npm.uninstall", "stopServer", "openUrl", "openExternal",
   "openIndexInBrowser"]

/-- The browser panel `startLiveServer` handler port computation:
`Number.isFinite(Number(message.port)) ? Math.max(1, Math.min(65535,
Math.floor(parsedPort))) : 3000`. -/
def browserClampedPort (port : JSVal) : Nat :=
  match (port.toNumber).toFiniteNumber with
  | some p => clampPort p
  | none => 3000

/-- The browser panel `startLiveServer` handler mode computation:
`typeof message.mode === "string" && message.mode.trim() ?
message.mode.trim() : "dev"`. -/
def browserRequestedMode (mode : JSVal) : String :=
  match mode with
  | .str s => if s.trim != "" then s.trim else "dev"
  | _ => "dev"

/-- The start operation the embedded browser panel handler dispatches for
a `startLiveServer` message: clamped-or-3000 port, the trimmed payload mode
defaulted to `dev`, the payload folder, browser origin, and the
"port explicitly specified" flag hard-coded to `true`. -/
def browserStartLiveAction (m : Msg) : HandlerOp :=
  .startServer (.num (Int.ofNat (browserClampedPort m.port)))
    (browserRequestedMode m.mode) m.folder .browser true

/-- Arguments of one `startHTFlowServer` call in a sequence whose port and
mode are fixed: the ambient workspace/timestamp facts plus the per-call
folder, origin and explicit-port flag. -/
structure StartCall where
  hasWorkspace : Bool
  now : Nat
  folder : Option String
  origin : Origin
  hasUserSpecifiedPort : Bool
  deriving Repr, DecidableEq

/-- Run a sequence of `startHTFlowServer` calls sharing one port value and
mode, collecting each call's returned `{serverId, server}` result. -/
def runStarts (port : JSVal) (mode : String) :
    List StartCall → SPState → SPState × List (Option (String × RunningServer))
  | [], st => (st, [])
  | c :: cs, st =>
      let r := startHTFlowServer st ⟨c.hasWorkspace, c.now⟩ port mode c.folder
        c.origin c.hasUserSpecifiedPort
      let rest := runStarts port mode cs r.1
      (rest.1, r.2 :: rest.2)

/-- Number of registry entries carrying the given `(port, mode)` pair. -/
def countPair (servers : List (String × RunningServer)) (p : Nat)
    (m : String) : Nat :=
  (servers.filter (fun kv => kv.2.port == p && kv.2.mode == m)).length

/-- The trace of command strings sent to terminals, in order. -/
def sentTermTexts (events : List Event) : List String :=
  events.filterMap (fun e =>
    match e with
    | .termText _ c => some c
    | _ => none)

/-!
Helper lemmas: record/`ite` projections and association-list facts shared
by the claim theorems.
-/

theorem browserTargetConsistent_iffB (st : SPState) :
    browserTargetConsistent st ↔ browserTargetConsistentB st = true := by
  unfold browserTargetConsistent browserTargetConsistentB
  cases h : st.browserLiveServerId with
  | none =>
      simp only [h]
      constructor
      · intro _; trivial
      · intro _ sid hs; cases hs
  | some sid =>
      simp only [h]
      constructor
      · intro hc; exact hc sid rfl
      · intro hb sid2 hs; cases hs; exact hb

instance (st : SPState) : Decidable (browserTargetConsistent st) :=
  decidable_of_iff _ (browserTargetConsistent_iffB st).symm

@[simp] theorem emit_runningServers (st : SPState) (e : Event) :
    (emit st e).runningServers = st.runningServers := rfl

@[simp] theorem emit_terminals (st : SPState) (e : Event) :
    (emit st e).terminals = st.terminals := rfl

@[simp] theorem emit_browserLiveServerId (st : SPState) (e : Event) :
    (emit st e).browserLiveServerId = st.browserLiveServerId := rfl

@[simp] theorem emit_viewOpen (st : SPState) (e : Event) :
    (emit st e).viewOpen = st.viewOpen := rfl

@[simp] theorem emit_browserPanelOpen (st : SPState) (e : Event) :
    (emit st e).browserPanelOpen = st.browserPanelOpen := rfl

@[simp] theorem emit_portMappings (st : SPState) (e : Event) :
    (emit st e).portMappings = st.portMappings := rfl

@[simp] theorem emit_nextTerm (st : SPState) (e : Event) :
    (emit st e).nextTerm = st.nextTerm := rfl

@[simp] theorem emit_events (st : SPState) (e : Event) :
    (emit st e).events = st.events ++ [e] := rfl

@[simp] theorem ite_runningServers (c : Prop) [Decidable c] (a b : SPState) :
    (if c then a else b).runningServers =
      if c then a.runningServers else b.runningServers := by
  split <;> rfl

@[simp] theorem ite_terminals (c : Prop) [Decidable c] (a b : SPState) :
    (if c then a else b).terminals = if c then a.terminals else b.terminals := by
  split <;> rfl

@[simp] theorem ite_browserLiveServerId (c : Prop) [Decidable c] (a b : SPState) :
    (if c then a else b).browserLiveServerId =
      if c then a.browserLiveServerId else b.browserLiveServerId := by
  split <;> rfl

@[simp] theorem ite_events (c : Prop) [Decidable c] (a b : SPState) :
    (if c then a else b).events = if c then a.events else b.events := by
  split <;> rfl

@[simp] theorem ite_viewOpen (c : Prop) [Decidable c] (a b : SPState) :
    (if c then a else b).viewOpen = if c then a.viewOpen else b.viewOpen := by
  split <;> rfl

@[simp] theorem ite_browserPanelOpen (c : Prop) [Decidable c] (a b : SPState) :
    (if c then a else b).browserPanelOpen =
      if c then a.browserPanelOpen else b.browserPanelOpen := by
  split <;> rfl

@[simp] theorem ensureBrowserPortMapping_runningServers (st : SPState) (p : Nat) :
    (ensureBrowserPortMapping st p).runningServers = st.runningServers := by
  unfold ensureBrowserPortMapping
  split
  · rfl
  · split <;> rfl

@[simp] theorem ensureBrowserPortMapping_terminals (st : SPState) (p : Nat) :
    (ensureBrowserPortMapping st p).terminals = st.terminals := by
  unfold ensureBrowserPortMapping
  split
  · rfl
  · split <;> rfl

@[simp] theorem ensureBrowserPortMapping_browserLiveServerId (st : SPState) (p : Nat) :
    (ensureBrowserPortMapping st p).browserLiveServerId = st.browserLiveServerId := by
  unfold ensureBrowserPortMapping
  split
  · rfl
  · split <;> rfl

@[simp] theorem ensureBrowserPortMapping_events (st : SPState) (p : Nat) :
    (ensureBrowserPortMapping st p).events = st.events := by
  unfold ensureBrowserPortMapping
  split
  · rfl
  · split <;> rfl

theorem mapHas_eq_isSome {α : Type} (m : List (String × α)) (k : String) :
    mapHas m k = (mapGet m k).isSome := by
  unfold mapHas mapGet
  induction m with
  | nil => rfl
  | cons kv tl ih =>
      cases h : (kv.1 == k) with
      | true => simp [List.any_cons, List.find?_cons, h]
      | false => simpa [List.any_cons, List.find?_cons, h] using ih

theorem mapHas_mapDelete {α : Type} (m : List (String × α)) (k k2 : String) :
    mapHas (mapDelete m k) k2 = ((k2 != k) && mapHas m k2) := by
  rw [Bool.eq_iff_iff]
  unfold mapHas mapDelete
  simp only [List.any_eq_true, List.mem_filter, Bool.and_eq_true, bne_iff_ne,
    beq_iff_eq, ne_eq]
  constructor
  · rintro ⟨a, ⟨ham, hne⟩, hk2⟩
    exact ⟨by rw [← hk2]; exact hne, a, ham, hk2⟩
  · rintro ⟨hne, a, ham, hk2⟩
    exact ⟨a, ⟨ham, by rw [hk2]; exact hne⟩, hk2⟩

theorem mapHas_mapSet_self {α : Type} (m : List (String × α)) (k : String)
    (v : α) : mapHas (mapSet m k v) k = true := by
  unfold mapSet
  by_cases hk : mapHas m k = true
  · rw [if_pos hk]
    unfold mapHas at hk ⊢
    rw [List.any_map]
    rw [List.any_eq_true] at hk ⊢
    obtain ⟨b, hbm, hbk⟩ := hk
    refine ⟨b, hbm, ?_⟩
    simp only [Function.comp]
    rw [if_pos hbk]
    exact beq_self_eq_true k
  · rw [if_neg hk]
    unfold mapHas
    rw [List.any_append]
    simp

theorem mapHas_mapSet_of {α : Type} (m : List (String × α)) (k k2 : String)
    (v : α) (h : mapHas m k2 = true) : mapHas (mapSet m k v) k2 = true := by
  unfold mapSet
  by_cases hk : mapHas m k = true
  · rw [if_pos hk]
    unfold mapHas at h ⊢
    rw [List.any_map]
    rw [List.any_eq_true] at h ⊢
    obtain ⟨a, ham, hak2⟩ := h
    refine ⟨a, ham, ?_⟩
    simp only [Function.comp]
    by_cases hak : (a.1 == k) = true
    · rw [if_pos hak]
      have h1 : a.1 = k := by simpa using hak
      have h2 : a.1 = k2 := by simpa using hak2
      simp [← h1, h2]
    · rw [if_neg hak]
      exact hak2
  · rw [if_neg hk]
    unfold mapHas at h ⊢
    rw [List.any_append, h]
    rfl

theorem findRunningServer_mapHas (servers : List (String × RunningServer))
    (p : Nat) (mo : Option String) (sid : String) (srv : RunningServer)
    (h : findRunningServerByPort servers p mo = some (sid, srv)) :
    mapHas servers sid = true := by
  unfold findRunningServerByPort at h
  have hm := List.mem_of_find?_eq_some h
  unfold mapHas
  rw [List.any_eq_true]
  exact ⟨(sid, srv), hm, by simp⟩

theorem start_existing (st : SPState) (env : StartEnv) (port : JSVal)
    (mode : String) (folder : Option String) (origin : Origin) (hup : Bool)
    (sid : String) (srv : RunningServer)
    (hf : findRunningServerByPort st.runningServers (normalizePortOf port mode)
      (some mode) = some (sid, srv)) :
    (startHTFlowServer st env port mode folder origin hup).2 = some (sid, srv) ∧
    (startHTFlowServer st env port mode folder origin hup).1.runningServers =
      st.runningServers ∧
    (startHTFlowServer st env port mode folder origin hup).1.terminals =
      st.terminals ∧
    (startHTFlowServer st env port mode folder origin hup).1.browserLiveServerId =
      (if origin = .browser then some sid else st.browserLiveServerId) := by
  simp only [startHTFlowServer, hf]
  by_cases ho : origin = Origin.browser <;>
    simp [ho]

theorem start_noWorkspace (st : SPState) (env : StartEnv) (port : JSVal)
    (mode : String) (folder : Option String) (origin : Origin) (hup : Bool)
    (hf : findRunningServerByPort st.runningServers (normalizePortOf port mode)
      (some mode) = none)
    (hw : env.hasWorkspace = false) :
    startHTFlowServer st env port mode folder origin hup =
      (emit st (.errMsg "Cannot start HTFlow server: no workspace folder is open"),
       none) := by
  simp only [startHTFlowServer, hf]
  simp [hw, emit]


theorem sentTermTexts_append (a b : List Event) :
    sentTermTexts (a ++ b) = sentTermTexts a ++ sentTermTexts b := by
  simp [sentTermTexts]

theorem start_fresh (st : SPState) (env : StartEnv) (port : JSVal)
    (mode : String) (folder : Option String) (origin : Origin) (hup : Bool)
    (hf : findRunningServerByPort st.runningServers (normalizePortOf port mode)
      (some mode) = none)
    (hw : env.hasWorkspace = true) :
    (startHTFlowServer st env port mode folder origin hup).2 =
      some (mode ++ "-" ++ toString (normalizePortOf port mode) ++ "-" ++
              toString env.now,
            { port := normalizePortOf port mode, mode := mode,
              folder := (folder.getD "").trim, startTime := env.now,
              terminal := st.nextTerm, origin := origin }) ∧
    (startHTFlowServer st env port mode folder origin hup).1.runningServers =
      mapSet st.runningServers
        (mode ++ "-" ++ toString (normalizePortOf port mode) ++ "-" ++
          toString env.now)
        { port := normalizePortOf port mode, mode := mode,
          folder := (folder.getD "").trim, startTime := env.now,
          terminal := st.nextTerm, origin := origin } ∧
    (startHTFlowServer st env port mode folder origin hup).1.terminals =
      mapSet st.terminals
        (mode ++ "-" ++ toString (normalizePortOf port mode) ++ "-" ++
          toString env.now) st.nextTerm ∧
    (startHTFlowServer st env port mode folder origin hup).1.browserLiveServerId =
      (if origin = .browser then
        some (mode ++ "-" ++ toString (normalizePortOf port mode) ++ "-" ++
          toString env.now)
       else st.browserLiveServerId) ∧
    sentTermTexts (startHTFlowServer st env port mode folder origin hup).1.events =
      sentTermTexts st.events ++
        [serveCommand mode ((folder.getD "").trim) hup (normalizePortOf port mode)] := by
  cases hv : st.viewOpen <;> cases hb : st.browserPanelOpen <;>
    by_cases ho : origin = Origin.browser <;>
      simp [startHTFlowServer, hf, hw, hv, hb, ho, sentTermTexts,
        ensureBrowserPortMapping, List.filterMap_append]

theorem mapGet_isNone_iff {α : Type} (m : List (String × α)) (k : String) :
    (mapGet m k).isNone = !mapHas m k := by
  rw [mapHas_eq_isSome]
  cases mapGet m k <;> rfl

theorem stop_found (st : SPState) (b : Bool) (sid : String) (p : Option Nat)
    (h : mapHas st.runningServers sid = true ∨ mapHas st.terminals sid = true) :
    (stopServer st b sid p).2 = true ∧
    (stopServer st b sid p).1.runningServers = mapDelete st.runningServers sid ∧
    (stopServer st b sid p).1.terminals = mapDelete st.terminals sid ∧
    (stopServer st b sid p).1.browserLiveServerId =
      (if st.browserLiveServerId = some sid then none
       else st.browserLiveServerId) := by
  have hs : (mapGet st.runningServers sid).isNone = !mapHas st.runningServers sid :=
    mapGet_isNone_iff st.runningServers sid
  have ht : (mapGet st.terminals sid).isNone = !mapHas st.terminals sid :=
    mapGet_isNone_iff st.terminals sid
  cases hg : mapGet st.runningServers sid with
  | none =>
      cases htg : mapGet st.terminals sid with
      | none =>
          exfalso
          rw [hg] at hs; rw [htg] at ht
          rcases h with h | h
          · rw [h] at hs; cases hs
          · rw [h] at ht; cases ht
      | some t =>
          have hterm : mapHas st.terminals sid = true := by
            rw [mapHas_eq_isSome, htg]; rfl
          simp only [stopServer, hg, htg, hterm]
          by_cases hbl : st.browserLiveServerId = some sid <;>
            simp [hbl]
  | some srv =>
      cases htg : mapGet st.terminals sid with
      | none =>
          simp only [stopServer, hg, htg]
          by_cases hbl : st.browserLiveServerId = some sid <;>
            simp [hbl]
      | some t =>
          simp only [stopServer, hg, htg]
          by_cases hbl : st.browserLiveServerId = some sid <;>
            simp [hbl]

theorem stop_notFound (st : SPState) (b : Bool) (sid : String) (p : Option Nat)
    (h1 : mapHas st.runningServers sid = false)
    (h2 : mapHas st.terminals sid = false) :
    stopServer st b sid p = (st, false) := by
  have hg : mapGet st.runningServers sid = none := by
    have hx := mapHas_eq_isSome st.runningServers sid
    rw [h1] at hx
    cases hgg : mapGet st.runningServers sid
    · rfl
    · rw [hgg] at hx; cases hx
  simp [stopServer, hg, h2]

theorem runStarts_existing (port : JSVal) (mode : String)
    (calls : List StartCall) (sid : String) (srv : RunningServer)
    (hp : srv.port = normalizePortOf port mode) (hm : srv.mode = mode) :
    ∀ st : SPState, st.runningServers = [(sid, srv)] →
      (runStarts port mode calls st).1.runningServers = [(sid, srv)] ∧
      ∀ r ∈ (runStarts port mode calls st).2, r = some (sid, srv) := by
  induction calls with
  | nil =>
      intro st hreg
      exact ⟨hreg, by intro r hr; cases hr⟩
  | cons c cs ih =>
      intro st hreg
      have hf : findRunningServerByPort st.runningServers
          (normalizePortOf port mode) (some mode) = some (sid, srv) := by
        rw [hreg]
        simp [findRunningServerByPort, hp, hm]
      obtain ⟨h2, hrs, _, _⟩ := start_existing st ⟨c.hasWorkspace, c.now⟩ port
        mode c.folder c.origin c.hasUserSpecifiedPort sid srv hf
      have hnext := ih (startHTFlowServer st ⟨c.hasWorkspace, c.now⟩ port mode
        c.folder c.origin c.hasUserSpecifiedPort).1 (hrs.trans hreg)
      refine ⟨?_, ?_⟩
      · simpa only [runStarts] using hnext.1
      · intro r hr
        simp only [runStarts, List.mem_cons] at hr
        rcases hr with hr | hr
        · rw [hr, h2]
        · exact hnext.2 r hr

/-- C1: for every sequence of `startHTFlowServer` calls sharing one port
value and mode (run from a fresh provider, with a workspace open), at most
one registry entry with the normalized `(port, mode)` pair exists after all
calls settle, and every call — the second and later ones included —
returns the same server identifier and entry as the first instead of
inserting a new entry. -/
theorem c1_registry_no_duplicate (port : JSVal) (mode : String)
    (calls : List StartCall)
    (hws : ∀ c ∈ calls, c.hasWorkspace = true) (hne : calls ≠ []) :
    countPair (runStarts port mode calls initState).1.runningServers
      (normalizePortOf port mode) mode ≤ 1 ∧
    ∃ sid srv,
      (runStarts port mode calls initState).2.head? = some (some (sid, srv)) ∧
      ∀ r ∈ (runStarts port mode calls initState).2, r = some (sid, srv) := by
  cases calls with
  | nil => exact absurd rfl hne
  | cons c cs =>
      have hw : c.hasWorkspace = true := hws c (List.mem_cons_self c cs)
      have hf : findRunningServerByPort initState.runningServers
          (normalizePortOf port mode) (some mode) = none := rfl
      obtain ⟨h2, hrs, _, _, _⟩ := start_fresh initState ⟨c.hasWorkspace, c.now⟩
        port mode c.folder c.origin c.hasUserSpecifiedPort hf hw
      have hreg1 : (startHTFlowServer initState ⟨c.hasWorkspace, c.now⟩ port
          mode c.folder c.origin c.hasUserSpecifiedPort).1.runningServers =
          [(mode ++ "-" ++ toString (normalizePortOf port mode) ++ "-" ++
              toString c.now,
            { port := normalizePortOf port mode, mode := mode,
              folder := (c.folder.getD "").trim, startTime := c.now,
              terminal := initState.nextTerm, origin := c.origin })] := by
        rw [hrs]
        rfl
      have hrun := runStarts_existing port mode cs
        (mode ++ "-" ++ toString (normalizePortOf port mode) ++ "-" ++
          toString c.now)
        ({ port := normalizePortOf port mode, mode := mode,
           folder := (c.folder.getD "").trim, startTime := c.now,
           terminal := initState.nextTerm, origin := c.origin }) rfl rfl
        (startHTFlowServer initState ⟨c.hasWorkspace, c.now⟩ port mode c.folder
          c.origin c.hasUserSpecifiedPort).1 hreg1
      constructor
      · have hlen : (runStarts port mode (c :: cs) initState).1.runningServers =
            [(mode ++ "-" ++ toString (normalizePortOf port mode) ++ "-" ++
                toString c.now,
              { port := normalizePortOf port mode, mode := mode,
                folder := (c.folder.getD "").trim, startTime := c.now,
                terminal := initState.nextTerm, origin := c.origin })] := by
          simpa only [runStarts] using hrun.1
        rw [hlen]
        unfold countPair
        exact le_trans (List.length_filter_le _ _) (by simp)
      · refine ⟨mode ++ "-" ++ toString (normalizePortOf port mode) ++ "-" ++
            toString c.now,
          { port := normalizePortOf port mode, mode := mode,
            folder := (c.folder.getD "").trim, startTime := c.now,
            terminal := initState.nextTerm, origin := c.origin }, ?_, ?_⟩
        · simp only [runStarts, List.head?_cons]
          rw [h2]
        · intro r hr
          simp only [runStarts, List.mem_cons] at hr
          rcases hr with hr | hr
          · rw [hr, h2]
          · exact hrun.2 r hr

/-- C2 counterexample: `startHTFlowServer` called with port 0 in mode `dev`
records port 1 — the clamp of 0 into [1, 65535] — not the mode default
3050; port 99999 is likewise clamped to 65535, not defaulted. -/
theorem c2_counterexample :
    normalizePortOf (.num 0) "dev" = 1 ∧
    ¬ normalizePortOf (.num 0) "dev" = 3050 ∧
    normalizePortOf (.num 99999) "dev" = 65535 ∧
    ¬ normalizePortOf (.num 99999) "dev" = 3050 ∧
    ((startHTFlowServer initState ⟨true, 0⟩ (.num 0) "dev" none .sidebar
        false).2.map (fun pr => pr.2.port)) = some 1 ∧
    ((startHTFlowServer initState ⟨true, 0⟩ (.num 99999) "dev" none .sidebar
        false).2.map (fun pr => pr.2.port)) = some 65535 := by
  refine ⟨rfl, by decide, rfl, by decide, by decide, by decide⟩

/-- C2 amended: a finite numeric port is clamped into [1, 65535] (so 0
normalizes to 1 and 99999 to 65535); only a non-numeric or empty port value
— anything `Number.isFinite` rejects — falls back to the mode default:
3050 for `dev`, 3051 for `start`, 3000 otherwise. -/
theorem c2_port_normalization (mode : String) (v : JSVal) (n : Int) :
    normalizePortOf (.num 0) mode = 1 ∧
    normalizePortOf (.num 99999) mode = 65535 ∧
    (v.toFiniteNumber = none → normalizePortOf v mode = defaultPortFor mode) ∧
    normalizePortOf (.str "") mode = defaultPortFor mode ∧
    normalizePortOf .nan mode = defaultPortFor mode ∧
    normalizePortOf .undef mode = defaultPortFor mode ∧
    normalizePortOf (.num n) mode = clampPort n ∧
    1 ≤ normalizePortOf (.num n) mode ∧
    normalizePortOf (.num n) mode ≤ 65535 ∧
    defaultPortFor "dev" = 3050 ∧
    defaultPortFor "start" = 3051 ∧
    (mode ≠ "dev" → mode ≠ "start" → defaultPortFor mode = 3000) := by
  refine ⟨rfl, rfl, ?_, rfl, rfl, rfl, rfl, ?_, ?_, rfl, rfl, ?_⟩
  · intro hv
    unfold normalizePortOf
    rw [hv]
  · rw [show normalizePortOf (.num n) mode = clampPort n from rfl]
    unfold clampPort
    omega
  · rw [show normalizePortOf (.num n) mode = clampPort n from rfl]
    unfold clampPort
    omega
  · intro h1 h2
    unfold defaultPortFor
    rw [if_neg h1, if_neg h2]

theorem c2_port_normalization_witness :
    ("serve" : String) ≠ "dev" ∧ ("serve" : String) ≠ "start" ∧
    (JSVal.str "x").toFiniteNumber = none ∧
    defaultPortFor "serve" = 3000 ∧
    normalizePortOf (.str "x") "serve" = defaultPortFor "serve" ∧
    normalizePortOf (.num 0) "serve" = 1 :=
  ⟨by decide, by decide, by decide,
   (c2_port_normalization "serve" (.str "x") 7).2.2.2.2.2.2.2.2.2.2.2
     (by decide) (by decide),
   (c2_port_normalization "serve" (.str "x") 7).2.2.1 (by decide),
   (c2_port_normalization "serve" (.str "x") 7).1⟩

/-- C3 counterexample: start a browser-origin server (making it the
live-preview target) and then tear everything down with `dispose`; the
registry is cleared but the target pointer is not, so the non-empty target
no longer refers to any registry key — the invariant fails after
`dispose()`. -/
theorem c3_counterexample :
    browserTargetConsistent
      (startHTFlowServer initState ⟨true, 0⟩ (.num 4000) "dev" none .browser
        true).1 ∧
    ¬ browserTargetConsistent
      (dispose (startHTFlowServer initState ⟨true, 0⟩ (.num 4000) "dev" none
        .browser true).1) ∧
    (dispose (startHTFlowServer initState ⟨true, 0⟩ (.num 4000) "dev" none
        .browser true).1).browserLiveServerId = some "dev-4000-0" ∧
    (dispose (startHTFlowServer initState ⟨true, 0⟩ (.num 4000) "dev" none
        .browser true).1).runningServers = [] := by
  refine ⟨by decide, by decide, by decide, by decide⟩

/-- C3 amended: the browser live-preview target, whenever non-empty,
refers to a key present in the running-server registry, and this invariant
is preserved by every `startHTFlowServer` and `stopServer` call (the stop
of the target clears it); `dispose()` however clears the registry without
clearing the target pointer, so the invariant can fail after full teardown
(the counterexample) until the `browserReady` handler self-heals it. -/
theorem c3_browser_target_consistency (st : SPState)
    (h : browserTargetConsistent st) (env : StartEnv) (port : JSVal)
    (mode : String) (folder : Option String) (origin : Origin) (hup : Bool)
    (b : Bool) (sid : String) (p : Option Nat) :
    browserTargetConsistent
      (startHTFlowServer st env port mode folder origin hup).1 ∧
    browserTargetConsistent (stopServer st b sid p).1 := by
  constructor
  · cases hf : findRunningServerByPort st.runningServers
        (normalizePortOf port mode) (some mode) with
    | some pr =>
        obtain ⟨sid1, srv1⟩ := pr
        obtain ⟨_, hr, _, hbl⟩ := start_existing st env port mode folder origin
          hup sid1 srv1 hf
        intro t htarget
        rw [hbl] at htarget
        rw [hr]
        by_cases ho : origin = Origin.browser
        · rw [if_pos ho] at htarget
          cases htarget
          exact findRunningServer_mapHas _ _ _ _ _ hf
        · rw [if_neg ho] at htarget
          exact h t htarget
    | none =>
        cases hw : env.hasWorkspace with
        | false =>
            rw [start_noWorkspace st env port mode folder origin hup hf hw]
            intro t htarget
            exact h t htarget
        | true =>
            obtain ⟨_, hr, _, hbl, _⟩ := start_fresh st env port mode folder
              origin hup hf hw
            intro t htarget
            rw [hbl] at htarget
            rw [hr]
            by_cases ho : origin = Origin.browser
            · rw [if_pos ho] at htarget
              cases htarget
              exact mapHas_mapSet_self _ _ _
            · rw [if_neg ho] at htarget
              exact mapHas_mapSet_of _ _ _ _ (h t htarget)
  · by_cases hfound : mapHas st.runningServers sid = true ∨
        mapHas st.terminals sid = true
    · obtain ⟨_, hr, _, hbl⟩ := stop_found st b sid p hfound
      intro t htarget
      rw [hbl] at htarget
      by_cases hself : st.browserLiveServerId = some sid
      · rw [if_pos hself] at htarget
        cases htarget
      · rw [if_neg hself] at htarget
        rw [hr, mapHas_mapDelete]
        have hneq : t ≠ sid := by
          intro he
          rw [he] at htarget
          exact hself htarget
        have hmem := h t htarget
        simp [hneq, hmem]
    · have h1 : mapHas st.runningServers sid = false := by
        rcases hx : mapHas st.runningServers sid
        · rfl
        · exact absurd (Or.inl hx) hfound
      have h2 : mapHas st.terminals sid = false := by
        rcases hx : mapHas st.terminals sid
        · rfl
        · exact absurd (Or.inr hx) hfound
      rw [stop_notFound st b sid p h1 h2]
      intro t htarget
      exact h t htarget

theorem c3_browser_target_consistency_witness :
    browserTargetConsistent initState ∧
    (browserTargetConsistent
       (startHTFlowServer initState ⟨true, 3⟩ (.num 4000) "dev" none .browser
         true).1 ∧
     browserTargetConsistent (stopServer initState false "ghost" none).1) :=
  ⟨by decide,
   c3_browser_target_consistency initState (by decide) ⟨true, 3⟩ (.num 4000)
     "dev" none .browser true false "ghost" none⟩

/-- C4: whenever the identifier has a registry entry or a bare terminal
handle, `stopServer` removes the registry entry after the disposal attempt
— whether or not the interrupt signal failed — and returns true; it
returns false exactly when the identifier has neither a registry entry nor
a terminal handle. -/
theorem c4_stop_cleanup_unconditional (st : SPState) (b : Bool) (sid : String)
    (p : Option Nat) :
    (mapHas st.runningServers sid = true ∨ mapHas st.terminals sid = true →
       (stopServer st b sid p).2 = true ∧
       mapHas (stopServer st b sid p).1.runningServers sid = false) ∧
    ((stopServer st b sid p).2 = false ↔
       mapHas st.runningServers sid = false ∧
       mapHas st.terminals sid = false) := by
  constructor
  · intro h
    obtain ⟨h2, hr, _, _⟩ := stop_found st b sid p h
    refine ⟨h2, ?_⟩
    rw [hr, mapHas_mapDelete]
    simp
  · constructor
    · intro hfalse
      by_cases h1 : mapHas st.runningServers sid = true
      · obtain ⟨h2, _, _, _⟩ := stop_found st b sid p (Or.inl h1)
        rw [h2] at hfalse
        cases hfalse
      · by_cases h2 : mapHas st.terminals sid = true
        · obtain ⟨h2x, _, _, _⟩ := stop_found st b sid p (Or.inr h2)
          rw [h2x] at hfalse
          cases hfalse
        · exact ⟨by simpa using h1, by simpa using h2⟩
    · intro hpair
      rw [stop_notFound st b sid p hpair.1 hpair.2]

theorem c4_stop_cleanup_unconditional_witness :
    (mapHas (startHTFlowServer initState ⟨true, 5⟩ (.num 4000) "dev" none
        .sidebar true).1.runningServers "dev-4000-5" = true ∨
     mapHas (startHTFlowServer initState ⟨true, 5⟩ (.num 4000) "dev" none
        .sidebar true).1.terminals "dev-4000-5" = true) ∧
    ((stopServer (startHTFlowServer initState ⟨true, 5⟩ (.num 4000) "dev" none
        .sidebar true).1 true "dev-4000-5" none).2 = true ∧
     mapHas (stopServer (startHTFlowServer initState ⟨true, 5⟩ (.num 4000)
        "dev" none .sidebar true).1 true "dev-4000-5"
        none).1.runningServers "dev-4000-5" = false) :=
  ⟨by decide,
   (c4_stop_cleanup_unconditional (startHTFlowServer initState ⟨true, 5⟩
      (.num 4000) "dev" none .sidebar true).1 true "dev-4000-5" none).1
     (by decide)⟩

/-- C5: after a `stopServer` call that returns true, the identifier is
absent from both the running-server registry and the terminal-handle map,
and a second `stopServer` on the same identifier returns false. -/
theorem c5_stop_clears_mapping (st : SPState) (b b2 : Bool) (sid : String)
    (p p2 : Option Nat) (h : (stopServer st b sid p).2 = true) :
    mapHas (stopServer st b sid p).1.runningServers sid = false ∧
    mapHas (stopServer st b sid p).1.terminals sid = false ∧
    (stopServer (stopServer st b sid p).1 b2 sid p2).2 = false := by
  by_cases hfound : mapHas st.runningServers sid = true ∨
      mapHas st.terminals sid = true
  · obtain ⟨_, hr, ht, _⟩ := stop_found st b sid p hfound
    have hr2 : mapHas (stopServer st b sid p).1.runningServers sid = false := by
      rw [hr, mapHas_mapDelete]
      simp
    have ht2 : mapHas (stopServer st b sid p).1.terminals sid = false := by
      rw [ht, mapHas_mapDelete]
      simp
    refine ⟨hr2, ht2, ?_⟩
    rw [stop_notFound _ b2 sid p2 hr2 ht2]
  · have h1 : mapHas st.runningServers sid = false := by
      rcases hx : mapHas st.runningServers sid
      · rfl
      · exact absurd (Or.inl hx) hfound
    have h2 : mapHas st.terminals sid = false := by
      rcases hx : mapHas st.terminals sid
      · rfl
      · exact absurd (Or.inr hx) hfound
    rw [stop_notFound st b sid p h1 h2] at h
    cases h

theorem c5_stop_clears_mapping_witness :
    ((stopServer (startHTFlowServer initState ⟨true, 5⟩ (.num 4000) "dev" none
        .sidebar true).1 false "dev-4000-5" none).2 = true) ∧
    (mapHas (stopServer (startHTFlowServer initState ⟨true, 5⟩ (.num 4000)
        "dev" none .sidebar true).1 false "dev-4000-5"
        none).1.runningServers "dev-4000-5" = false ∧
     mapHas (stopServer (startHTFlowServer initState ⟨true, 5⟩ (.num 4000)
        "dev" none .sidebar true).1 false "dev-4000-5"
        none).1.terminals "dev-4000-5" = false ∧
     (stopServer (stopServer (startHTFlowServer initState ⟨true, 5⟩ (.num 4000)
        "dev" none .sidebar true).1 false "dev-4000-5" none).1 false
        "dev-4000-5" (some 4000)).2 = false) :=
  ⟨by decide,
   c5_stop_clears_mapping (startHTFlowServer initState ⟨true, 5⟩ (.num 4000)
      "dev" none .sidebar true).1 false false "dev-4000-5" none (some 4000)
     (by decide)⟩

/-- C6: for an identifier with neither a registry entry nor a terminal
handle — one never issued by a start — `stopServer` returns false and the
state is completely unchanged: no `serverStopped` or `liveServerStopped`
broadcast is appended to the event log, and the registry, terminal map and
live-preview target keep their values. -/
theorem c6_stop_unknown_no_side_effects (st : SPState) (b : Bool)
    (sid : String) (p : Option Nat)
    (h1 : mapHas st.runningServers sid = false)
    (h2 : mapHas st.terminals sid = false) :
    (stopServer st b sid p).2 = false ∧
    (stopServer st b sid p).1 = st ∧
    (stopServer st b sid p).1.events = st.events ∧
    (stopServer st b sid p).1.runningServers = st.runningServers ∧
    (stopServer st b sid p).1.terminals = st.terminals ∧
    (stopServer st b sid p).1.browserLiveServerId = st.browserLiveServerId := by
  rw [stop_notFound st b sid p h1 h2]
  exact ⟨rfl, rfl, rfl, rfl, rfl, rfl⟩

theorem c6_stop_unknown_no_side_effects_witness :
    (mapHas initState.runningServers "ghost" = false ∧
     mapHas initState.terminals "ghost" = false) ∧
    ((stopServer initState true "ghost" (some 9)).2 = false ∧
     (stopServer initState true "ghost" (some 9)).1 = initState ∧
     (stopServer initState true "ghost" (some 9)).1.events =
       initState.events ∧
     (stopServer initState true "ghost" (some 9)).1.runningServers =
       initState.runningServers ∧
     (stopServer initState true "ghost" (some 9)).1.terminals =
       initState.terminals ∧
     (stopServer initState true "ghost" (some 9)).1.browserLiveServerId =
       initState.browserLiveServerId) :=
  ⟨⟨by decide, by decide⟩,
   c6_stop_unknown_no_side_effects initState true "ghost" (some 9) (by decide)
     (by decide)⟩

theorem c1_registry_no_duplicate_witness :
    (∀ c ∈ ([⟨true, 0, none, .sidebar, false⟩,
             ⟨true, 1, some "a", .browser, true⟩] : List StartCall),
        c.hasWorkspace = true) ∧
    (countPair (runStarts (.num 4000) "dev"
        [⟨true, 0, none, .sidebar, false⟩, ⟨true, 1, some "a", .browser, true⟩]
        initState).1.runningServers
        (normalizePortOf (.num 4000) "dev") "dev" ≤ 1 ∧
     ∃ sid srv,
       (runStarts (.num 4000) "dev"
          [⟨true, 0, none, .sidebar, false⟩,
           ⟨true, 1, some "a", .browser, true⟩] initState).2.head? =
         some (some (sid, srv)) ∧
       ∀ r ∈ (runStarts (.num 4000) "dev"
          [⟨true, 0, none, .sidebar, false⟩,
           ⟨true, 1, some "a", .browser, true⟩] initState).2,
         r = some (sid, srv)) :=
  ⟨by decide,
   c1_registry_no_duplicate (.num 4000) "dev" _ (by decide) (by decide)⟩

/-- C7: on every start that spawns a new server (no existing entry, a
workspace open), the command sent to the new terminal is exactly the one
`serveCommand` selects, and that selection is: short form
`npx htflow dev [folder]` for mode `dev` without an explicit port, short
form `npx htflow serve [folder]` for mode `start` without an explicit
port, and the long form `npx htflow serve <mode> [folder] -p <port>`
whenever a port was explicitly specified. -/
theorem c7_invocation_selection (st : SPState) (env : StartEnv) (port : JSVal)
    (mode : String) (folder : Option String) (origin : Origin) (hup : Bool)
    (hf : findRunningServerByPort st.runningServers (normalizePortOf port mode)
      (some mode) = none)
    (hw : env.hasWorkspace = true) :
    sentTermTexts (startHTFlowServer st env port mode folder origin
        hup).1.events =
      sentTermTexts st.events ++
        [serveCommand mode ((folder.getD "").trim) hup
          (normalizePortOf port mode)] ∧
    (∀ f np, serveCommand "dev" f false np = "npx htflow dev" ++ folderArgOf f) ∧
    (∀ f np, serveCommand "start" f false np =
      "npx htflow serve" ++ folderArgOf f) ∧
    (∀ mo f np, serveCommand mo f true np =
      "npx htflow serve " ++ mo ++ folderArgOf f ++ " -p " ++ toString np) := by
  refine ⟨(start_fresh st env port mode folder origin hup hf hw).2.2.2.2,
    ?_, ?_, ?_⟩
  · intro f np
    simp [serveCommand]
  · intro f np
    simp [serveCommand]
  · intro mo f np
    simp [serveCommand]

theorem c7_invocation_selection_witness :
    (findRunningServerByPort initState.runningServers
       (normalizePortOf (.num 4001) "dev") (some "dev") = none) ∧
    (sentTermTexts (startHTFlowServer initState ⟨true, 9⟩ (.num 4001) "dev"
        (some " sub ") .sidebar true).1.events =
      sentTermTexts initState.events ++
        [serveCommand "dev" (((some " sub " : Option String).getD "").trim)
          true (normalizePortOf (.num 4001) "dev")] ∧
     (∀ f np, serveCommand "dev" f false np =
       "npx htflow dev" ++ folderArgOf f) ∧
     (∀ f np, serveCommand "start" f false np =
       "npx htflow serve" ++ folderArgOf f) ∧
     (∀ mo f np, serveCommand mo f true np =
       "npx htflow serve " ++ mo ++ folderArgOf f ++ " -p " ++ toString np)) :=
  ⟨by decide,
   c7_invocation_selection initState ⟨true, 9⟩ (.num 4001) "dev" (some " sub ")
     .sidebar true (by decide) (by decide)⟩

/-- C8: the captured command result follows the fallback chain. Success
path: non-empty stdout is delivered, else non-empty stderr, else the
sentinel no-output text (the generic executor and the audit variant each
with their own sentinel). Failure path: the failed process stdout, then
stderr, then the error message, in that priority; the exit code is the
reported one (a reported non-zero code) and defaults to 1 when absent, and
the result carries `success = false` instead of throwing. -/
theorem c8_capture_fallback_chain (cmd : String) (res : ExecSuccess)
    (e : ExecError) (d : Nat) :
    (res.stdout ≠ "" → (panelCommandData cmd (.ok res) d).output = res.stdout) ∧
    (res.stdout = "" → res.stderr ≠ "" →
       (panelCommandData cmd (.ok res) d).output = res.stderr) ∧
    (res.stdout = "" → res.stderr = "" →
       (panelCommandData cmd (.ok res) d).output =
         "Command completed successfully (no output)") ∧
    (panelCommandData cmd (.ok res) d).success = true ∧
    (e.stdout ≠ "" → (panelCommandData cmd (.failed e) d).output = e.stdout) ∧
    (e.stdout = "" → e.stderr ≠ "" →
       (panelCommandData cmd (.failed e) d).output = e.stderr) ∧
    (e.stdout = "" → e.stderr = "" → e.message ≠ "" →
       (panelCommandData cmd (.failed e) d).output = e.message) ∧
    (panelCommandData cmd (.failed e) d).success = false ∧
    (∀ c : Int, c ≠ 0 → e.code = some c →
       (panelCommandData cmd (.failed e) d).exitCode = c) ∧
    (e.code = none → (panelCommandData cmd (.failed e) d).exitCode = 1) ∧
    (res.stdout ≠ "" → auditPanelOutput (.ok res) = some res.stdout) ∧
    (res.stdout = "" → res.stderr ≠ "" →
       auditPanelOutput (.ok res) = some res.stderr) ∧
    (res.stdout = "" → res.stderr = "" →
       auditPanelOutput (.ok res) = some "No output received") ∧
    (e.stdout = "" → e.stderr = "" → e.message ≠ "" →
       auditPanelOutput (.failed e) = some e.message) := by
  refine ⟨?_, ?_, ?_, rfl, ?_, ?_, ?_, rfl, ?_, ?_, ?_, ?_, ?_, ?_⟩
  · intro h
    simp [panelCommandData, jsOrStr, h]
  · intro h1 h2
    simp [panelCommandData, jsOrStr, h1, h2]
  · intro h1 h2
    simp [panelCommandData, jsOrStr, h1, h2]
  · intro h
    simp [panelCommandData, jsOrStr, h]
  · intro h1 h2
    simp [panelCommandData, jsOrStr, h1, h2]
  · intro h1 h2 h3
    simp [panelCommandData, jsOrStr, h1, h2, h3]
  · intro c hc hcode
    simp [panelCommandData, hcode, hc]
  · intro hcode
    simp [panelCommandData, hcode]
  · intro h
    simp [auditPanelOutput, jsOrStr, h]
  · intro h1 h2
    simp [auditPanelOutput, jsOrStr, h1, h2]
  · intro h1 h2
    simp [auditPanelOutput, jsOrStr, h1, h2]
  · intro h1 h2 h3
    simp [auditPanelOutput, jsOrStr, h1, h2, h3]

theorem c8_capture_fallback_chain_witness :
    ("" : String) = "" ∧ ("warn" : String) ≠ "" ∧
    (panelCommandData "npx htflow build" (.ok ⟨"", "warn"⟩) 7).output =
      "warn" ∧
    (panelCommandData "npx htflow build" (.failed ⟨"", "", "boom", none⟩)
        7).output = "boom" ∧
    (panelCommandData "npx htflow build" (.failed ⟨"", "", "boom", none⟩)
        7).exitCode = 1 ∧
    auditPanelOutput (.ok ⟨"", ""⟩) = some "No output received" :=
  ⟨rfl, by decide,
   (c8_capture_fallback_chain "npx htflow build" ⟨"", "warn"⟩
      ⟨"", "", "boom", none⟩ 7).2.1 rfl (by decide),
   (c8_capture_fallback_chain "npx htflow build" ⟨"", "warn"⟩
      ⟨"", "", "boom", none⟩ 7).2.2.2.2.2.2.1 rfl rfl (by decide),
   (c8_capture_fallback_chain "npx htflow build" ⟨"", "warn"⟩
      ⟨"", "", "boom", none⟩ 7).2.2.2.2.2.2.2.2.2.1 rfl,
   (c8_capture_fallback_chain "npx htflow build" ⟨"", ""⟩
      ⟨"", "", "boom", none⟩ 7).2.2.2.2.2.2.2.2.2.2.2.2.1 rfl rfl⟩

/-- C9: the message handler bound to the sidebar view and the one bound to
the detached panel are behaviorally identical — for every incoming message
(every command name and payload) both dispatch to the same operation with
the same arguments — and on any command name outside the shared dispatch
table both fall through to the generic `HTFlow: <command>` information
acknowledgment rather than an error. -/
theorem c9_dual_surface_dispatch_parity :
    (∀ m : Msg, sidebarDispatch m = panelDispatch m) ∧
    (∀ m : Msg, m.command ∉ knownCommands →
       sidebarDispatch m = .showInfo ("HTFlow: " ++ m.command) ∧
       panelDispatch m = .showInfo ("HTFlow: " ++ m.command)) := by
  have hpar : ∀ m : Msg, sidebarDispatch m = panelDispatch m := fun _ => rfl
  refine ⟨hpar, ?_⟩
  intro m hm
  simp only [knownCommands, List.mem_cons, List.not_mem_nil, or_false,
    not_or] at hm
  obtain ⟨h1, h2, h3, h4, h5, h6, h7, h8, h9, h10, h11, h12, h13, h14, h15,
    h16, h17, h18, h19, h20, h21, h22, h23, h24, h25, h26, h27⟩ := hm
  have hsb : sidebarDispatch m = .showInfo ("HTFlow: " ++ m.command) := by
    simp [sidebarDispatch, h1, h2, h3, h4, h5, h6, h7, h8, h9, h10, h11, h12,
      h13, h14, h15, h16, h17, h18, h19, h20, h21, h22, h23, h24, h25, h26,
      h27]
  exact ⟨hsb, (hpar m).symm.trans hsb⟩

theorem c9_dual_surface_dispatch_parity_witness :
    (("mystery.command" : String) ∉ knownCommands) ∧
    sidebarDispatch
        ⟨"mystery.command", .undef, .undef, none, none, none, .undef, "", "",
          false, false⟩ =
      .showInfo "HTFlow: mystery.command" ∧
    panelDispatch
        ⟨"mystery.command", .undef, .undef, none, none, none, .undef, "", "",
          false, false⟩ =
      .showInfo "HTFlow: mystery.command" ∧
    sidebarDispatch
        ⟨"stopServer", .num 4000, .undef, none, none, none, .str "id1", "",
          "", false, false⟩ =
      panelDispatch
        ⟨"stopServer", .num 4000, .undef, none, none, none, .str "id1", "",
          "", false, false⟩ :=
  ⟨by decide,
   (c9_dual_surface_dispatch_parity.2
      ⟨"mystery.command", .undef, .undef, none, none, none, .undef, "", "",
        false, false⟩ (by decide)).1,
   (c9_dual_surface_dispatch_parity.2
      ⟨"mystery.command", .undef, .undef, none, none, none, .undef, "", "",
        false, false⟩ (by decide)).2,
   c9_dual_surface_dispatch_parity.1
     ⟨"stopServer", .num 4000, .undef, none, none, none, .str "id1", "", "",
       false, false⟩⟩

/-- C10: a `startLiveServer` message handled by the sidebar view or the
detached panel ignores the payload mode and folder entirely — the server
is started with mode `dev`, no folder, browser origin, and the port
flagged as not explicitly specified (defaulting to 3000 when the payload
port is absent) — while the embedded browser panel handler honors the
payload mode (trimmed, defaulting to `dev` only when blank or not a
string), passes the payload folder through, and always flags the port as
explicitly specified. -/
theorem c10_startLiveServer_handling (m : Msg)
    (h : m.command = "startLiveServer") :
    (∀ mo fo, sidebarDispatch { m with mode := mo, folder := fo } =
        sidebarDispatch m ∧
      panelDispatch { m with mode := mo, folder := fo } = panelDispatch m) ∧
    sidebarDispatch m =
      .startServer (if m.port.truthy then m.port else .num 3000) "dev" none
        .browser false ∧
    panelDispatch m = sidebarDispatch m ∧
    (m.port = .undef → sidebarDispatch m =
      .startServer (.num 3000) "dev" none .browser false) ∧
    browserStartLiveAction m =
      .startServer (.num (Int.ofNat (browserClampedPort m.port)))
        (browserRequestedMode m.mode) m.folder .browser true ∧
    (∀ s : String, s.trim ≠ "" → browserRequestedMode (.str s) = s.trim) := by
  refine ⟨?_, ?_, rfl, ?_, rfl, ?_⟩
  · intro mo fo
    constructor
    · simp [sidebarDispatch, h]
    · simp [panelDispatch, h]
  · simp [sidebarDispatch, h]
  · intro hp
    simp [sidebarDispatch, h, hp, JSVal.truthy]
  · intro s hs
    simp [browserRequestedMode, hs]

theorem c10_startLiveServer_handling_witness :
    (Msg.command ⟨"startLiveServer", .undef, .str "start", some "f", none,
        none, .undef, "", "", false, false⟩ = "startLiveServer") ∧
    sidebarDispatch
        ⟨"startLiveServer", .undef, .str "start", some "f", none, none,
          .undef, "", "", false, false⟩ =
      .startServer (.num 3000) "dev" none .browser false ∧
    panelDispatch
        ⟨"startLiveServer", .undef, .str "start", some "f", none, none,
          .undef, "", "", false, false⟩ =
      sidebarDispatch
        ⟨"startLiveServer", .undef, .str "start", some "f", none, none,
          .undef, "", "", false, false⟩ :=
  ⟨rfl,
   (c10_startLiveServer_handling
      ⟨"startLiveServer", .undef, .str "start", some "f", none, none, .undef,
        "", "", false, false⟩ rfl).2.2.2.1 rfl,
   (c10_startLiveServer_handling
      ⟨"startLiveServer", .undef, .str "start", some "f", none, none, .undef,
        "", "", false, false⟩ rfl).2.2.1⟩
